import Mathlib

/-!
Verification of the store-backend core of the `great_expectations` repository
(key model, path/key codec, backend-id lifecycle, per-backend CRUD/list/move
semantics).  The concrete store-backend classes are not part of the provided
source tree (only their test suite is), so every operation below is modelled
from the natural-language specification of the store-backend subsystem and
cross-checked against the observable behaviour recorded in
`tests/data_context/store/test_store_backends.py`.

Paths, object keys and stored values are modelled as lists of characters
(`Str`), and tuple keys as lists of such segments, so that every operation is
executable and every predicate decidable.
-/

/-- A character string, modelled as a list of characters so that all string
operations compute structurally. -/
abbrev Str : Type := List Char

/-- Converts a Lean string literal into the `Str` representation. -/
def str (s : String) : Str := s.toList

/-- A tuple key of a store backend: an ordered tuple of string segments. -/
abbrev StoreKey : Type := List Str

/-- Modelled from the spec: the error taxonomy of the store layer
(`InvalidKeyError`, `TypeError`, `StoreBackendError`, `StoreError`, plus the
Python built-ins `ValueError`/`KeyError`/`IndexError` that the codec and
`move` can surface).  Each carries its message. -/
inductive StoreErr : Type where
  | invalidKeyError : Str → StoreErr
  | typeError : Str → StoreErr
  | storeBackendError : Str → StoreErr
  | storeError : Str → StoreErr
  | valueError : Str → StoreErr
  | keyError : Str → StoreErr
  | indexError : Str → StoreErr
  deriving DecidableEq, Repr

/-- Whether `pat` occurs as a contiguous substring of `s` (used to state the
"message contains …" assertions of the test suite). -/
def containsSub (s pat : Str) : Bool :=
  match s with
  | [] => pat.isEmpty
  | _ :: rest => pat.isPrefixOf s || containsSub rest pat

namespace StoreBackend

/-- Modelled from the spec: the shallow embedding of the Python values that
can be handed to `_validate_key` — strings, integers, `None`, and tuples of
further values. -/
inductive PyObj : Type where
  | pyStr : Str → PyObj
  | pyInt : Int → PyObj
  | pyNone : PyObj
  | pyTuple : List PyObj → PyObj

/-- Whether a Python value is exactly a string. -/
def PyObj.isStr : PyObj → Bool
  | .pyStr _ => true
  | _ => false

/-- Modelled from the spec: `StoreBackend._validate_key` (absent from the
provided sources) fails with `TypeError` unless the key is a tuple whose
elements are all strings; the empty tuple is valid. -/
def _validate_key (key : PyObj) : Except StoreErr Unit :=
  match key with
  | .pyTuple elems =>
      if elems.all PyObj.isStr then .ok ()
      else .error (.typeError (str "Keys in a store backend must be instances of tuples of strings"))
  | _ => .error (.typeError (str "Keys in a store backend must be instances of tuples of strings"))

/-- The reserved one-element key under which every backend persists its id. -/
def STORE_BACKEND_ID_KEY : StoreKey := [str ".ge_store_backend_id"]

/-- Modelled from the spec: the well-known sentinel error UUID returned by
`store_backend_id` when persistence is attempted but unreachable. -/
def STORE_BACKEND_ID_ERROR_UUID : Str := str "00000000-0000-0000-0000-00000000e003"

/-- Modelled from the spec: the on-medium representation of a persisted
backend id — the reserved file parses as `store_backend_id = <uuid>`. -/
def storeBackendIdFileContents (uuid : Str) : Str :=
  str "store_backend_id = " ++ uuid ++ ['\n']

/-- Modelled from the spec: reading a persisted backend id back strips the
fixed `store_backend_id = ` prelude and the trailing newline. -/
def parseStoreBackendIdFile (contents : Str) : Str :=
  (contents.drop (str "store_backend_id = ").length).dropLast

/-- Whether a character is a lowercase hexadecimal digit. -/
def isHexLower (c : Char) : Bool :=
  c.isDigit || ('a' ≤ c && c ≤ 'f')

/-- Modelled from the spec: `tests.test_utils.validate_uuid4` — the string
must have the canonical 8-4-4-4-12 shape of a version-4 UUID (hyphens at
positions 8, 13, 18, 23, the version nibble `4` at position 14, a variant
nibble in `8/9/a/b` at position 19, lowercase hex elsewhere). -/
def validate_uuid4 (u : Str) : Bool :=
  u.length == 36 &&
  (List.range 36).all (fun i =>
    let c := u.getD i ' '
    if i == 8 || i == 13 || i == 18 || i == 23 then c == '-'
    else if i == 14 then c == '4'
    else if i == 19 then c == '8' || c == '9' || c == 'a' || c == 'b'
    else isHexLower c)

end StoreBackend

namespace TupleStoreBackend

open StoreBackend

/-- One piece of a positional filepath template: either a literal run of
characters or the placeholder `{n}` for the n-th key segment. -/
inductive TPart : Type where
  | lit : Str → TPart
  | ph : Nat → TPart
  deriving DecidableEq, Repr

/-- Modelled from the spec: a `filepath_template` (absent from the provided
sources), represented by its parsed alternation of literals and positional
placeholders. -/
abbrev Template : Type := List TPart

/-- The parsed form of the template `"{0}/{1}/{2}/foo-{2}-expectations.txt"`
exercised by `test_FilesystemStoreBackend_two_way_string_conversion`. -/
def templateFooExpectations : Template :=
  [.ph 0, .lit ['/'], .ph 1, .lit ['/'], .ph 2, .lit ('/' :: str "foo-"), .ph 2,
   .lit (str "-expectations.txt")]

/-- The parsed form of the template `"my_file_{0}"` used throughout the test
suite. -/
def templateMyFile : Template := [.lit (str "my_file_"), .ph 0]

/-- Substitutes key segments positionally into the template; `none` when a
placeholder index has no matching segment. -/
def substitute : Template → StoreKey → Option Str
  | [], _ => some []
  | .lit l :: rest, key => (substitute rest key).map (fun r => l ++ r)
  | .ph i :: rest, key =>
      match key[i]? with
      | some s => (substitute rest key).map (fun r => s ++ r)
      | none => none

/-- The key arity a template expects: one segment per distinct placeholder
index, i.e. one more than the largest index mentioned. -/
def templateKeyLength : Template → Nat
  | [] => 0
  | .lit _ :: rest => templateKeyLength rest
  | .ph i :: rest => max (i + 1) (templateKeyLength rest)

/-- Splits `cs` at the first occurrence of the literal `l`, returning the
characters before it and the characters after it. -/
def findLit (l : Str) : Str → Option (Str × Str)
  | [] => if l.isEmpty then some ([], []) else none
  | c :: cs =>
      if l.isPrefixOf (c :: cs) then some ([], (c :: cs).drop l.length)
      else (findLit l cs).map (fun p => (c :: p.1, p.2))

/-- Modelled from the spec: inverting a filepath template against an observed
filepath.  A placeholder bounded by a separator-led literal captures up to the
next separator; a placeholder before the final literal captures everything up
to that trailing literal; a trailing placeholder captures the rest.  Returns
the `(index, captured segment)` pairs in template order. -/
def matchTemplate : Template → Str → Option (List (Nat × Str))
  | [], cs => if cs.isEmpty then some [] else none
  | .lit l :: rest, cs =>
      if l.isPrefixOf cs then matchTemplate rest (cs.drop l.length) else none
  | [.ph i], cs => some [(i, cs)]
  | .ph i :: .lit l :: rest, cs =>
      if l.head? = some '/' then
        let cap := cs.takeWhile (fun c => c != '/')
        let cs2 := cs.drop cap.length
        if l.isPrefixOf cs2 then
          (matchTemplate rest (cs2.drop l.length)).map (fun r => (i, cap) :: r)
        else none
      else if rest.isEmpty then
        if l.isSuffixOf cs then some [(i, cs.take (cs.length - l.length))] else none
      else
        match findLit l cs with
        | some p => (matchTemplate rest p.2).map (fun r => (i, p.1) :: r)
        | none => none
  | .ph i :: .ph j :: rest, cs =>
      (matchTemplate (.ph j :: rest) cs).map (fun r => (i, []) :: r)

/-- Rebuilds the key tuple from the captured `(index, segment)` pairs, later
captures overriding earlier ones; `none` when some position was never
captured (the path does not match the expected shape). -/
def buildKeyFromMatches (len : Nat) (captures : List (Nat × Str)) : Option StoreKey :=
  let slots : List (Option Str) :=
    captures.foldl (fun acc m => acc.set m.1 (some m.2)) (List.replicate len none)
  if slots.all Option.isSome then some (slots.map (fun o => o.getD [])) else none

/-- Joins key segments with the `/` separator. -/
def joinSep : StoreKey → Str
  | [] => []
  | [s] => s
  | s :: rest => s ++ '/' :: joinSep rest

/-- Splits a path on the `/` separator (left inverse of `joinSep` on
separator-free segments). -/
def splitSep : Str → StoreKey
  | [] => [[]]
  | c :: cs =>
      if c = '/' then [] :: splitSep cs
      else
        match splitSep cs with
        | [] => [[c]]
        | x :: xs => (c :: x) :: xs

/-- Modelled from the spec: the codec-relevant configuration of a tuple store
backend — optional positional template, optional `filepath_prefix` (must not
end in a separator) and optional `filepath_suffix`. -/
structure TupleCodec : Type where
  filepath_template : Option Template
  filepathPfx : Option Str
  filepathSfx : Option Str
  deriving DecidableEq, Repr

/-- Prepends the configured `filepath_prefix`, with its own separator. -/
def applyPfx (fpPfx : Option Str) (p : Str) : Str :=
  match fpPfx with
  | some q => q ++ '/' :: p
  | none => p

/-- Modelled from the spec: `TupleStoreBackend._convert_key_to_filepath`
(absent from the provided sources).  Raises `ValueError` when a segment
contains the separator; the reserved id key bypasses template and suffix and
maps to its literal filename; otherwise the template is substituted (or the
segments joined) and prefix/suffix applied. -/
def _convert_key_to_filepath (cfg : TupleCodec) (key : StoreKey) : Except StoreErr Str :=
  if key.any (fun s => s.any (fun c => c == '/')) then
    .error (.valueError (str "Keys in file store backends must not contain the filepath delimiter"))
  else if key = STORE_BACKEND_ID_KEY then
    .ok (applyPfx cfg.filepathPfx (joinSep key))
  else
    match
      (match cfg.filepath_template with
       | some t => substitute t key
       | none => some (joinSep key)) with
    | none => .error (.indexError (str "Tuple index out of range for the configured filepath template"))
    | some p =>
        let p2 := applyPfx cfg.filepathPfx p
        .ok
          (match cfg.filepathSfx with
           | some f => p2 ++ f
           | none => p2)

/-- Strips the configured `filepath_prefix` (with its separator) from an
observed filepath; `none` when the path does not carry it. -/
def dropPfxOpt (fpPfx : Option Str) (p : Str) : Option Str :=
  match fpPfx with
  | none => some p
  | some q =>
      if (q ++ ['/']).isPrefixOf p then some (p.drop (q ++ ['/']).length) else none

/-- Strips the configured `filepath_suffix` from an observed filepath; `none`
when the path does not end with it. -/
def dropSfxOpt (fpSfx : Option Str) (p : Str) : Option Str :=
  match fpSfx with
  | none => some p
  | some f => if f.isSuffixOf p then some (p.take (p.length - f.length)) else none

/-- Modelled from the spec: `TupleStoreBackend._convert_filepath_to_key`
(absent from the provided sources) — the exact left inverse of the encoding:
strip prefix and suffix, then invert the template (or split on the
separator), rejecting paths that do not match the expected shape. -/
def _convert_filepath_to_key (cfg : TupleCodec) (filepath : Str) : Option StoreKey :=
  (dropPfxOpt cfg.filepathPfx filepath).bind fun p1 =>
  (dropSfxOpt cfg.filepathSfx p1).bind fun p2 =>
  match cfg.filepath_template with
  | some t => (matchTemplate t p2).bind (buildKeyFromMatches (templateKeyLength t))
  | none => some (splitSep p2)

/-- The codec configuration exercised by
`test_FilesystemStoreBackend_two_way_string_conversion`: the template
`"{0}/{1}/{2}/foo-{2}-expectations.txt"`, no prefix, no suffix. -/
def codecFoo : TupleCodec := ⟨some templateFooExpectations, none, none⟩

/-- The codec configuration used by most backend tests: the template
`"my_file_{0}"`, no prefix, no suffix. -/
def codecMyFile : TupleCodec := ⟨some templateMyFile, none, none⟩

end TupleStoreBackend

/-- Looks a key up in an association list (the uniform model of every
key-value medium below: in-process map, directory tree, object bucket). -/
def lookupA {α β : Type} [DecidableEq α] : List (α × β) → α → Option β
  | [], _ => none
  | (k1, v1) :: rest, k => if k = k1 then some v1 else lookupA rest k

/-- Writes a binding, overwriting in place when the key is present and
appending otherwise. -/
def insertA {α β : Type} [DecidableEq α] : List (α × β) → α → β → List (α × β)
  | [], k, v => [(k, v)]
  | (k1, v1) :: rest, k, v =>
      if k = k1 then (k, v) :: rest else (k1, v1) :: insertA rest k v

/-- Deletes every binding of a key. -/
def removeA {α β : Type} [DecidableEq α] : List (α × β) → α → List (α × β)
  | [], _ => []
  | (k1, v1) :: rest, k =>
      if k = k1 then removeA rest k else (k1, v1) :: removeA rest k

namespace InMemoryStoreBackend

open StoreBackend TupleStoreBackend

/-- Modelled from the spec: the state of an `InMemoryStoreBackend` (absent
from the provided sources) — a single ordered mapping from tuple key to
value, holding the persisted backend id under the reserved key. -/
structure State : Type where
  store : List (StoreKey × Str)
  deriving DecidableEq, Repr

/-- Modelled from the spec: construction generates a fresh UUIDv4 (supplied
here as `freshUuid`) and persists it under the reserved key. -/
def init (freshUuid : Str) : State :=
  ⟨[(STORE_BACKEND_ID_KEY, storeBackendIdFileContents freshUuid)]⟩

/-- Modelled from the spec: `get` fails with `InvalidKeyError` when the key
is absent. -/
def get (s : State) (key : StoreKey) : Except StoreErr Str :=
  match lookupA s.store key with
  | some v => .ok v
  | none => .error (.invalidKeyError (str "Unable to retrieve value for nonexistent key: " ++ joinSep key))

/-- Modelled from the spec: `set` writes the value regardless of prior
existence. -/
def set (s : State) (key : StoreKey) (value : Str) : State :=
  ⟨insertA s.store key value⟩

/-- Modelled from the spec: `has_key` never raises for a missing key. -/
def has_key (s : State) (key : StoreKey) : Bool :=
  (lookupA s.store key).isSome

/-- Modelled from the spec: `add` is `set` failing with `StoreBackendError`
when the key already exists. -/
def add (s : State) (key : StoreKey) (value : Str) : Except StoreErr State :=
  if has_key s key then
    .error (.storeBackendError (str "Store already has the following key: " ++ joinSep key))
  else .ok (set s key value)

/-- Modelled from the spec: `update` is `set` failing with
`StoreBackendError` when the key does not exist. -/
def update (s : State) (key : StoreKey) (value : Str) : Except StoreErr State :=
  if has_key s key then .ok (set s key value)
  else
    .error (.storeBackendError
      (str "Store does not have a value associated the following key: " ++ joinSep key))

/-- Modelled from the spec: `add_or_update` has `set` semantics regardless of
prior existence. -/
def add_or_update (s : State) (key : StoreKey) (value : Str) : State :=
  set s key value

/-- Modelled from the spec: `remove_key` reports whether a key was actually
removed; removing an absent key returns `false` rather than raising. -/
def remove_key (s : State) (key : StoreKey) : Bool × State :=
  if has_key s key then (true, ⟨removeA s.store key⟩) else (false, s)

/-- Modelled from the spec: `move` writes the source value at the
destination and then drops the source key, failing with `KeyError` when the
source is absent; an existing destination value is silently overwritten. -/
def move (s : State) (source_key dest_key : StoreKey) : Except StoreErr State :=
  match lookupA s.store source_key with
  | some v => .ok ⟨removeA (insertA s.store dest_key v) source_key⟩
  | none => .error (.keyError (joinSep source_key))

/-- Modelled from the spec: `list_keys` returns every key in the mapping,
the reserved backend-id key included, in insertion order. -/
def list_keys (s : State) : List StoreKey :=
  s.store.map (fun p => p.1)

/-- Modelled from the spec: `get_url_for_key` always fails with `StoreError`
— no URL concept applies to an in-memory backend. -/
def get_url_for_key (_s : State) (_key : StoreKey) : Except StoreErr Str :=
  .error (.storeError (str "Unable to generate url for key in an InMemoryStoreBackend"))

end InMemoryStoreBackend

namespace TupleFilesystemStoreBackend

open StoreBackend TupleStoreBackend

/-- Modelled from the spec: the configuration of a
`TupleFilesystemStoreBackend` (absent from the provided sources) — the codec
options plus an optional public URL root. -/
structure Config : Type where
  codec : TupleCodec
  basePublicPath : Option Str
  deriving DecidableEq, Repr

/-- The relative path of the reserved backend-id file: the literal reserved
filename, under the configured `filepath_prefix` when present. -/
def idFilepath (codec : TupleCodec) : Str :=
  applyPfx codec.filepathPfx (joinSep STORE_BACKEND_ID_KEY)

/-- Modelled from the spec: the state of a filesystem backend — its
configuration, the directory tree under `base_directory` as a mapping from
relative path to file contents, and the cached backend id. -/
structure State : Type where
  config : Config
  fs : List (Str × Str)
  store_backend_id : Str
  deriving DecidableEq, Repr

/-- Modelled from the spec: on construction the reserved id file is read if
present, else a fresh UUIDv4 (supplied as `freshUuid`) is persisted there. -/
def constructWithId (cfg : Config) (fs0 : List (Str × Str)) (freshUuid : Str) : State :=
  match lookupA fs0 (idFilepath cfg.codec) with
  | some contents => ⟨cfg, fs0, parseStoreBackendIdFile contents⟩
  | none =>
      ⟨cfg, insertA fs0 (idFilepath cfg.codec) (storeBackendIdFileContents freshUuid),
        freshUuid⟩

/-- Modelled from the spec: construction of a `TupleFilesystemStoreBackend`
over an existing directory tree.  `filepath_prefix` must not end with the
separator or its platform alternate (`/` or `\`); violating this fails with
`StoreBackendError` before anything is touched. -/
def construct (cfg : Config) (fs0 : List (Str × Str)) (freshUuid : Str) :
    Except StoreErr State :=
  match cfg.codec.filepathPfx with
  | some q =>
      if q.getLast? = some '/' ∨ q.getLast? = some '\\' then
        .error (.storeBackendError (str "filepath_prefix may not end with '/' or '\\'"))
      else .ok (constructWithId cfg fs0 freshUuid)
  | none => .ok (constructWithId cfg fs0 freshUuid)

/-- Modelled from the spec: `get` resolves the key to a path and fails with
`InvalidKeyError` when no file is there. -/
def get (s : State) (key : StoreKey) : Except StoreErr Str :=
  (_convert_key_to_filepath s.config.codec key).bind fun p =>
    match lookupA s.fs p with
    | some v => .ok v
    | none => .error (.invalidKeyError (str "Unable to retrieve object from TupleFilesystemStoreBackend"))

/-- Modelled from the spec: `set` writes the value at the encoded path,
creating intermediate structure as needed. -/
def set (s : State) (key : StoreKey) (value : Str) : Except StoreErr State :=
  (_convert_key_to_filepath s.config.codec key).map fun p =>
    ⟨s.config, insertA s.fs p value, s.store_backend_id⟩

/-- Modelled from the spec: `has_key` never raises for a missing key. -/
def has_key (s : State) (key : StoreKey) : Bool :=
  match _convert_key_to_filepath s.config.codec key with
  | .ok p => (lookupA s.fs p).isSome
  | .error _ => false

/-- Modelled from the spec: `remove_key` deletes the file at the encoded
path, reporting whether a file was actually removed. -/
def remove_key (s : State) (key : StoreKey) : Except StoreErr (Bool × State) :=
  (_convert_key_to_filepath s.config.codec key).map fun p =>
    match lookupA s.fs p with
    | some _ => (true, ⟨s.config, removeA s.fs p, s.store_backend_id⟩)
    | none => (false, s)

/-- Whether a relative path lies under a hidden editor-artifact directory
(a notebook checkpoint folder), which `list_keys` skips. -/
def isCheckpointPath (p : Str) : Bool :=
  (splitSep p).any (fun comp => comp == str ".ipynb_checkpoints")

/-- Modelled from the spec: `list_keys` walks the tree, decodes each file
path back to a key (the reserved id file to the reserved key), and skips
notebook-checkpoint artifacts. -/
def list_keys (s : State) : List StoreKey :=
  ((s.fs.map (fun p => p.1)).filter (fun p => !isCheckpointPath p)).filterMap
    (fun p =>
      if p = idFilepath s.config.codec then some STORE_BACKEND_ID_KEY
      else _convert_filepath_to_key s.config.codec p)

end TupleFilesystemStoreBackend

namespace TupleS3StoreBackend

open StoreBackend TupleStoreBackend

/-- Modelled from the spec: an object-store medium (S3 bucket, GCS bucket,
Azure container) — a flag for whether the location is reachable, and its
objects as a mapping from object key to contents.  Two backend instances
constructed against the same physical location share one `Medium` value. -/
structure Medium : Type where
  reachable : Bool
  objects : List (Str × Str)
  deriving DecidableEq, Repr

/-- The empty, reachable medium (a freshly created bucket). -/
def emptyMedium : Medium := ⟨true, []⟩

/-- Modelled from the spec: the configuration of a cloud object-store
backend — container/bucket, key prefix, codec options, optional public URL
root. -/
structure Config : Type where
  bucket : Str
  s3Pfx : Str
  codec : TupleCodec
  basePublicPath : Option Str
  deriving DecidableEq, Repr

/-- Modelled from the spec: a constructed backend instance — its
configuration plus the backend id cached for the instance's lifetime. -/
structure Backend : Type where
  config : Config
  store_backend_id : Str
  deriving DecidableEq, Repr

/-- Prepends the configured S3 prefix (when non-empty) to an encoded path. -/
def withS3Pfx (cfg : Config) (p : Str) : Str :=
  if cfg.s3Pfx.isEmpty then p else cfg.s3Pfx ++ '/' :: p

/-- Modelled from the spec: `TupleS3StoreBackend._build_s3_object_key`
(absent from the provided sources) — keys are addressed as
`prefix + encoded_path`. -/
def _build_s3_object_key (cfg : Config) (key : StoreKey) : Except StoreErr Str :=
  (_convert_key_to_filepath cfg.codec key).map (withS3Pfx cfg)

/-- The object key under which the backend id is persisted. -/
def idObjectKey (cfg : Config) : Str :=
  withS3Pfx cfg (applyPfx cfg.codec.filepathPfx (joinSep STORE_BACKEND_ID_KEY))

/-- Modelled from the spec: construction reads the reserved id object if
present; otherwise it generates a fresh UUIDv4 (supplied as `freshUuid`) and
attempts to persist it; when the location is unreachable, the sentinel error
UUID is cached instead of raising.  The same lifecycle covers the S3, GCS
and Azure-blob backends. -/
def construct (cfg : Config) (m : Medium) (freshUuid : Str) : Backend × Medium :=
  if m.reachable then
    match lookupA m.objects (idObjectKey cfg) with
    | some contents => (⟨cfg, parseStoreBackendIdFile contents⟩, m)
    | none =>
        (⟨cfg, freshUuid⟩,
          ⟨m.reachable,
            insertA m.objects (idObjectKey cfg) (storeBackendIdFileContents freshUuid)⟩)
  else (⟨cfg, STORE_BACKEND_ID_ERROR_UUID⟩, m)

/-- Modelled from the spec: `set` uploads the value at the built object
key. -/
def set (cfg : Config) (m : Medium) (key : StoreKey) (value : Str) :
    Except StoreErr Medium :=
  (_build_s3_object_key cfg key).map fun okey =>
    ⟨m.reachable, insertA m.objects okey value⟩

/-- Modelled from the spec: `get` downloads the object, failing with
`InvalidKeyError` when it is absent. -/
def get (cfg : Config) (m : Medium) (key : StoreKey) : Except StoreErr Str :=
  (_build_s3_object_key cfg key).bind fun okey =>
    match lookupA m.objects okey with
    | some v => .ok v
    | none => .error (.invalidKeyError (str "Unable to retrieve object from TupleS3StoreBackend"))

/-- The single-call cap of the medium's listing API (`list_objects_v2`
returns at most 1000 objects per call). -/
def MAX_KEYS_PER_PAGE : Nat := 1000

/-- Modelled from the spec: the paginated listing loop — each call yields at
most `MAX_KEYS_PER_PAGE` object keys and the loop continues from the
continuation point until no further pages are reported. -/
def listAllPages : List Str → List Str
  | [] => []
  | k :: rest =>
      ((k :: rest).take MAX_KEYS_PER_PAGE) ++ listAllPages ((k :: rest).drop MAX_KEYS_PER_PAGE)
  termination_by l => l.length
  decreasing_by
    simp only [List.length_drop, List.length_cons, MAX_KEYS_PER_PAGE]
    omega

/-- Strips the configured S3 prefix from a listed object key. -/
def stripS3Pfx (cfg : Config) (okey : Str) : Option Str :=
  if cfg.s3Pfx.isEmpty then some okey
  else if (cfg.s3Pfx ++ ['/']).isPrefixOf okey then
    some (okey.drop (cfg.s3Pfx ++ ['/']).length)
  else none

/-- Modelled from the spec: `list_keys` pages through the medium's listing
of keys under the prefix, accumulating the complete unioned result, and
decodes each object key back to a tuple key (the reserved id object to the
reserved key). -/
def list_keys (cfg : Config) (m : Medium) : List StoreKey :=
  (listAllPages ((m.objects.map (fun p => p.1)).filter
      (fun okey => cfg.s3Pfx.isPrefixOf okey))).filterMap
    (fun okey =>
      if okey = idObjectKey cfg then some STORE_BACKEND_ID_KEY
      else (stripS3Pfx cfg okey).bind (_convert_filepath_to_key cfg.codec))

/-- Modelled from the spec: `get_url_for_key` builds the deterministic
path-style S3 URL from bucket, prefix and encoded key. -/
def get_url_for_key (cfg : Config) (key : StoreKey) : Except StoreErr Str :=
  (_build_s3_object_key cfg key).map fun okey =>
    str "https://s3.amazonaws.com/" ++ cfg.bucket ++ '/' :: okey

/-- Modelled from the spec: `get_public_url_for_key` roots the URL at
`base_public_path` when configured — concatenated with only the encoded
filename, the bucket and prefix omitted — else falls back to
`get_url_for_key`. -/
def get_public_url_for_key (cfg : Config) (key : StoreKey) : Except StoreErr Str :=
  match cfg.basePublicPath with
  | some b => (_convert_key_to_filepath cfg.codec key).map (fun p => b ++ p)
  | none => get_url_for_key cfg key

/-- Writes one value per segment, each under the one-element key made of
that segment (the shape of the 1200 writes in
`test_TupleS3StoreBackend_list_over_1000_keys`). -/
def setMany (cfg : Config) : Medium → List Str → Except StoreErr Medium
  | m, [] => .ok m
  | m, seg :: rest => (set cfg m [seg] seg).bind fun m2 => setMany cfg m2 rest

/-- The configuration of `test_TupleS3StoreBackend_list_over_1000_keys`:
prefix `my_prefix`, template `my_file_{0}`. -/
def paginationConfig (bucket : Str) : Config :=
  ⟨bucket, str "my_prefix", codecMyFile, none⟩

/-- The object key that `set` produces for the one-element key `(s,)` under
`paginationConfig`. -/
def pageObjKey (s : Str) : Str :=
  str "my_prefix" ++ '/' :: (str "my_file_" ++ (s ++ []))

end TupleS3StoreBackend

namespace InlineStoreBackend

open StoreBackend TupleStoreBackend

/-- Modelled from the spec: the state of an `InlineStoreBackend` (absent
from the provided sources) — the declared `resource_type` the backend
addresses, and the owning configuration document, modelled as its top-level
resource sections each holding named sub-resources. -/
structure State : Type where
  resourceType : Str
  doc : List (Str × List (Str × Str))
  deriving DecidableEq, Repr

/-- The resource name a key addresses: `none` for a top-level resource key
(an empty tuple or an empty resource name). -/
def resourceNameOf (key : StoreKey) : Option Str :=
  match key with
  | [] => none
  | s :: _ => if s.isEmpty then none else some s

/-- Modelled from the spec: `InlineStoreBackend.move` always fails — moving
keys is not supported against the owning configuration document. -/
def move (_s : State) (_source_key _dest_key : StoreKey) : Except StoreErr State :=
  .error (.storeBackendError (str "InlineStoreBackend does not support moving of keys"))

/-- Modelled from the spec: `remove_key` fails for top-level resource keys,
fails with `StoreBackendError` when the addressed sub-resource does not
exist, and otherwise deletes the sub-resource from the owning document. -/
def remove_key (s : State) (key : StoreKey) : Except StoreErr State :=
  match resourceNameOf key with
  | none =>
      .error (.storeBackendError
        (str "InlineStoreBackend does not support the deletion of top level keys"))
  | some name =>
      match lookupA s.doc s.resourceType with
      | some sub =>
          match lookupA sub name with
          | some _ => .ok ⟨s.resourceType, insertA s.doc s.resourceType (removeA sub name)⟩
          | none =>
              .error (.storeBackendError
                (str "Could not find a value associated with key: " ++ name))
      | none =>
          .error (.storeBackendError
            (str "Could not find a value associated with key: " ++ name))

/-- Modelled from the spec: `set` writes the addressed sub-resource into the
owning document (top-level writes replace the resource section wholesale,
modelled here only for named sub-resources, which is all the claims need). -/
def set (s : State) (key : StoreKey) (value : Str) : Except StoreErr State :=
  match resourceNameOf key with
  | none => .ok s
  | some name =>
      match lookupA s.doc s.resourceType with
      | some sub => .ok ⟨s.resourceType, insertA s.doc s.resourceType (insertA sub name value)⟩
      | none => .ok ⟨s.resourceType, insertA s.doc s.resourceType [(name, value)]⟩

end InlineStoreBackend

/-! ## Helper lemmas -/

theorem isPrefixOf_append_self (l r : Str) : l.isPrefixOf (l ++ r) = true := by
  induction l with
  | nil => simp [List.isPrefixOf]
  | cons c cs ih => simp [List.isPrefixOf, ih]

theorem containsSub_of_isPrefixOf {s pat : Str} (h : pat.isPrefixOf s = true) :
    containsSub s pat = true := by
  cases s with
  | nil =>
    cases pat with
    | nil => rfl
    | cons c cs => simp [List.isPrefixOf] at h
  | cons c cs => simp [containsSub, h]

/-- A message that starts with `pat` contains `pat`. -/
theorem containsSub_append (pat r : Str) : containsSub (pat ++ r) pat = true :=
  containsSub_of_isPrefixOf (isPrefixOf_append_self pat r)

theorem isPrefixOf_trans_append {p a : Str} (r : Str) (h : p.isPrefixOf a = true) :
    p.isPrefixOf (a ++ r) = true := by
  induction p generalizing a with
  | nil => simp [List.isPrefixOf]
  | cons c cs ih =>
    cases a with
    | nil => simp [List.isPrefixOf] at h
    | cons b bs =>
      simp only [List.isPrefixOf, Bool.and_eq_true] at h
      simp only [List.cons_append, List.isPrefixOf, Bool.and_eq_true]
      exact ⟨h.1, ih h.2⟩

/-- A message whose fixed prelude starts with `pat` contains `pat`, whatever
follows the prelude. -/
theorem containsSub_prefix_append {pat a : Str} (r : Str) (h : pat.isPrefixOf a = true) :
    containsSub (a ++ r) pat = true :=
  containsSub_of_isPrefixOf (isPrefixOf_trans_append r h)

theorem lookupA_insertA_self {α β : Type} [DecidableEq α]
    (m : List (α × β)) (k : α) (v : β) : lookupA (insertA m k v) k = some v := by
  induction m with
  | nil => simp [insertA, lookupA]
  | cons p rest ih =>
    by_cases h : k = p.1
    · simp [insertA, h, lookupA]
    · simp [insertA, h, lookupA, ih]

theorem lookupA_insertA_ne {α β : Type} [DecidableEq α]
    (m : List (α × β)) {k k2 : α} (v : β) (h : k2 ≠ k) :
    lookupA (insertA m k v) k2 = lookupA m k2 := by
  induction m with
  | nil => simp [insertA, lookupA, h]
  | cons p rest ih =>
    by_cases h1 : k = p.1
    · subst h1
      simp [insertA, lookupA, h]
    · by_cases h2 : k2 = p.1
      · simp [insertA, h1, lookupA, h2]
      · simp [insertA, h1, lookupA, h2, ih]

theorem lookupA_removeA_self {α β : Type} [DecidableEq α]
    (m : List (α × β)) (k : α) : lookupA (removeA m k) k = none := by
  induction m with
  | nil => simp [removeA, lookupA]
  | cons p rest ih =>
    by_cases h : k = p.1
    · subst h
      simp [removeA, ih]
    · simp [removeA, h, lookupA, ih]

theorem lookupA_removeA_ne {α β : Type} [DecidableEq α]
    (m : List (α × β)) {k k2 : α} (h : k2 ≠ k) :
    lookupA (removeA m k) k2 = lookupA m k2 := by
  induction m with
  | nil => simp [removeA]
  | cons p rest ih =>
    by_cases h1 : k = p.1
    · subst h1
      simp [removeA, lookupA, h, ih]
    · simp [removeA, h1, lookupA, ih]

theorem insertA_of_lookupA_none {α β : Type} [DecidableEq α]
    {m : List (α × β)} {k : α} (v : β) (h : lookupA m k = none) :
    insertA m k v = m ++ [(k, v)] := by
  induction m with
  | nil => simp [insertA]
  | cons p rest ih =>
    by_cases h1 : k = p.1
    · simp [lookupA, h1] at h
    · simp [lookupA, h1] at h
      simp [insertA, h1, ih h]

namespace StoreBackend

theorem parse_storeBackendIdFile_roundtrip (uuid : Str) :
    parseStoreBackendIdFile (storeBackendIdFileContents uuid) = uuid := by
  unfold parseStoreBackendIdFile storeBackendIdFileContents
  rw [List.append_assoc, List.drop_left]
  simp

/-- The sentinel error UUID is not a valid UUIDv4 (its version nibble is 0),
so a valid id is automatically distinct from the sentinel. -/
theorem sentinel_not_valid_uuid4 :
    validate_uuid4 STORE_BACKEND_ID_ERROR_UUID = false := by decide

theorem valid_uuid4_ne_sentinel {u : Str} (h : validate_uuid4 u = true) :
    u ≠ STORE_BACKEND_ID_ERROR_UUID := by
  intro he
  rw [he, sentinel_not_valid_uuid4] at h
  exact Bool.false_ne_true h

end StoreBackend

namespace TupleStoreBackend

open StoreBackend

/-- The longest separator-free run of a separator-free block followed by a
separator is the block itself. -/
theorem takeWhile_append_slash (s r : Str) (hs : s.any (fun c => c == '/') = false) :
    (s ++ '/' :: r).takeWhile (fun c => c != '/') = s := by
  induction s with
  | nil => simp
  | cons c cs ih =>
    simp only [List.any_cons, Bool.or_eq_false_iff] at hs
    have hpc : (c != '/') = true := by simp [bne, hs.1]
    simp only [List.cons_append, List.takeWhile_cons, hpc, if_true]
    rw [ih hs.2]

theorem isSuffixOf_append_self (a l : Str) : l.isSuffixOf (a ++ l) = true := by
  simp [List.isSuffixOf, List.reverse_append, isPrefixOf_append_self]

/-- Inverting one `{i}/…` step of a template: a separator-free capture
followed by a separator-led literal. -/
theorem matchTemplate_step_slash1 (i : Nat) (rest : Template) (s tail : Str)
    (hs : s.any (fun c => c == '/') = false) :
    matchTemplate (.ph i :: .lit ['/'] :: rest) (s ++ '/' :: tail) =
      (matchTemplate rest tail).map (fun r => (i, s) :: r) := by
  simp only [matchTemplate, List.head?_cons, if_pos rfl]
  rw [takeWhile_append_slash s tail hs, List.drop_left]
  simp [List.isPrefixOf]

/-- Inverting a `{i}/lit…` step of a template whose literal continues past
the separator. -/
theorem matchTemplate_step_slash (i : Nat) (l2 : Str) (rest : Template) (s tail : Str)
    (hs : s.any (fun c => c == '/') = false) :
    matchTemplate (.ph i :: .lit ('/' :: l2) :: rest) (s ++ '/' :: (l2 ++ tail)) =
      (matchTemplate rest tail).map (fun r => (i, s) :: r) := by
  simp only [matchTemplate, List.head?_cons, if_pos rfl]
  rw [takeWhile_append_slash s (l2 ++ tail) hs, List.drop_left]
  simp [List.isPrefixOf, isPrefixOf_append_self, List.drop_left]

/-- Inverting the final `{i}literal` step of a template: the capture is
everything before the trailing literal. -/
theorem matchTemplate_step_final (i : Nat) (l s : Str) (hl : l.head? ≠ some '/') :
    matchTemplate [.ph i, .lit l] (s ++ l) = some [(i, s)] := by
  simp only [matchTemplate, if_neg hl, List.isEmpty_nil, if_pos rfl,
    isSuffixOf_append_self, List.length_append]
  simp [List.take_left]

/-- Encoding a separator-free three-segment key through the
`{0}/{1}/{2}/foo-{2}-expectations.txt` template. -/
theorem convert_key_foo_encode (s0 s1 s2 : Str)
    (h0 : s0.any (fun c => c == '/') = false)
    (h1 : s1.any (fun c => c == '/') = false)
    (h2 : s2.any (fun c => c == '/') = false) :
    _convert_key_to_filepath codecFoo [s0, s1, s2] =
      .ok (s0 ++ '/' :: (s1 ++ '/' :: (s2 ++ '/' ::
        (str "foo-" ++ (s2 ++ str "-expectations.txt"))))) := by
  simp [_convert_key_to_filepath, codecFoo, h0, h1, h2,
    substitute, templateFooExpectations, STORE_BACKEND_ID_KEY, applyPfx, str]

/-- Inverting the `{0}/{1}/{2}/foo-{2}-expectations.txt` template recovers
each separator-free capture, the repeated `{2}` capture twice. -/
theorem matchTemplate_foo (s0 s1 s2 : Str)
    (h0 : s0.any (fun c => c == '/') = false)
    (h1 : s1.any (fun c => c == '/') = false)
    (h2 : s2.any (fun c => c == '/') = false) :
    matchTemplate templateFooExpectations
      (s0 ++ '/' :: (s1 ++ '/' :: (s2 ++ '/' ::
        (str "foo-" ++ (s2 ++ str "-expectations.txt"))))) =
      some [(0, s0), (1, s1), (2, s2), (2, s2)] := by
  unfold templateFooExpectations
  rw [matchTemplate_step_slash1 _ _ _ _ h0, matchTemplate_step_slash1 _ _ _ _ h1,
    matchTemplate_step_slash _ _ _ _ _ h2,
    matchTemplate_step_final 2 (str "-expectations.txt") s2 (by decide)]
  rfl

/-- Decoding the filepath generated from a separator-free three-segment key
recovers that key exactly. -/
theorem convert_filepath_foo_decode (s0 s1 s2 : Str)
    (h0 : s0.any (fun c => c == '/') = false)
    (h1 : s1.any (fun c => c == '/') = false)
    (h2 : s2.any (fun c => c == '/') = false) :
    _convert_filepath_to_key codecFoo
      (s0 ++ '/' :: (s1 ++ '/' :: (s2 ++ '/' ::
        (str "foo-" ++ (s2 ++ str "-expectations.txt"))))) = some [s0, s1, s2] := by
  simp only [_convert_filepath_to_key, codecFoo, dropPfxOpt, dropSfxOpt, Option.some_bind]
  rw [matchTemplate_foo s0 s1 s2 h0 h1 h2]
  rfl

/-- C1: for a `TupleFilesystemStoreBackend` with the filepath template
`"{0}/{1}/{2}/foo-{2}-expectations.txt"`, converting any key tuple whose
segments avoid the separator to a filepath and converting that filepath back
yields the exact original tuple, and converting any key containing a
separator-bearing segment raises `ValueError`. -/
theorem filesystem_codec_two_way_string_conversion (s0 s1 s2 : Str)
    (h0 : s0.any (fun c => c == '/') = false)
    (h1 : s1.any (fun c => c == '/') = false)
    (h2 : s2.any (fun c => c == '/') = false)
    (bad : StoreKey) (hbad : bad.any (fun s => s.any (fun c => c == '/')) = true) :
    (∃ p, _convert_key_to_filepath codecFoo [s0, s1, s2] = .ok p ∧
        _convert_filepath_to_key codecFoo p = some [s0, s1, s2]) ∧
    ∃ msg, _convert_key_to_filepath codecFoo bad = .error (.valueError msg) := by
  refine ⟨⟨_, convert_key_foo_encode s0 s1 s2 h0 h1 h2,
    convert_filepath_foo_decode s0 s1 s2 h0 h1 h2⟩, ?_⟩
  exact ⟨str "Keys in file store backends must not contain the filepath delimiter",
    by simp [_convert_key_to_filepath, hbad]⟩

/-- C1 witness: the round trip at the concrete key `("A__a", "B-b", "C")`
and the `ValueError` at `("A/a", "B-b", "C")` of
`test_FilesystemStoreBackend_two_way_string_conversion`. -/
theorem filesystem_codec_two_way_string_conversion_witness :
    ((str "A__a").any (fun c => c == '/') = false) ∧
    (([str "A/a", str "B-b", str "C"] : StoreKey).any
      (fun s => s.any (fun c => c == '/')) = true) ∧
    ((∃ p, _convert_key_to_filepath codecFoo [str "A__a", str "B-b", str "C"] = .ok p ∧
        _convert_filepath_to_key codecFoo p = some [str "A__a", str "B-b", str "C"]) ∧
    ∃ msg, _convert_key_to_filepath codecFoo [str "A/a", str "B-b", str "C"] =
      .error (.valueError msg)) :=
  ⟨by decide, by decide,
    filesystem_codec_two_way_string_conversion (str "A__a") (str "B-b") (str "C")
      (by decide) (by decide) (by decide) [str "A/a", str "B-b", str "C"] (by decide)⟩

end TupleStoreBackend

namespace StoreBackend

/-- C6: `_validate_key` accepts the empty tuple and any tuple whose elements
are all strings, and raises `TypeError` for a bare (non-tuple) string and
for any tuple containing an integer or a `None` element. -/
theorem validate_key_spec (elems : List PyObj) (hall : elems.all PyObj.isStr = true)
    (s : Str) (bad : List PyObj)
    (hbad : PyObj.pyNone ∈ bad ∨ ∃ n : Int, PyObj.pyInt n ∈ bad) :
    _validate_key (.pyTuple elems) = .ok () ∧
    _validate_key (.pyTuple []) = .ok () ∧
    (∃ m, _validate_key (.pyStr s) = .error (.typeError m)) ∧
    (∃ m, _validate_key (.pyTuple bad) = .error (.typeError m)) := by
  have hfalse : bad.all PyObj.isStr = false := by
    rcases Bool.eq_false_or_eq_true (bad.all PyObj.isStr) with ht | hf
    · rcases hbad with h | ⟨n, h⟩
      · have := List.all_eq_true.mp ht _ h
        simp [PyObj.isStr] at this
      · have := List.all_eq_true.mp ht _ h
        simp [PyObj.isStr] at this
    · exact hf
  refine ⟨by simp [_validate_key, hall], rfl,
    ⟨str "Keys in a store backend must be instances of tuples of strings", rfl⟩,
    ⟨str "Keys in a store backend must be instances of tuples of strings", ?_⟩⟩
  simp [_validate_key, hfalse]

/-- C6 witness: the concrete keys of `test_StoreBackendValidation` — the
all-string five-tuple and the empty tuple are accepted; the bare string
`"nope"` and the tuple ending in the integer `100` are rejected. -/
theorem validate_key_spec_witness :
    (([PyObj.pyStr (str "I"), PyObj.pyStr (str "am"), PyObj.pyStr (str "a"),
        PyObj.pyStr (str "string"), PyObj.pyStr (str "tuple")].all PyObj.isStr = true) ∧
      (PyObj.pyNone ∈ [PyObj.pyStr (str "I"), PyObj.pyInt 100] ∨
        ∃ n : Int, PyObj.pyInt n ∈ [PyObj.pyStr (str "I"), PyObj.pyInt 100])) ∧
    (_validate_key (.pyTuple [PyObj.pyStr (str "I"), PyObj.pyStr (str "am"),
        PyObj.pyStr (str "a"), PyObj.pyStr (str "string"),
        PyObj.pyStr (str "tuple")]) = .ok () ∧
      _validate_key (.pyTuple []) = .ok () ∧
      (∃ m, _validate_key (.pyStr (str "nope")) = .error (.typeError m)) ∧
      (∃ m, _validate_key (.pyTuple [PyObj.pyStr (str "I"), PyObj.pyInt 100]) =
        .error (.typeError m))) :=
  ⟨⟨rfl, Or.inr ⟨100, by simp⟩⟩,
    validate_key_spec
      [PyObj.pyStr (str "I"), PyObj.pyStr (str "am"), PyObj.pyStr (str "a"),
        PyObj.pyStr (str "string"), PyObj.pyStr (str "tuple")] rfl (str "nope")
      [PyObj.pyStr (str "I"), PyObj.pyInt 100] (Or.inr ⟨100, by simp⟩)⟩

end StoreBackend

namespace InMemoryStoreBackend

open StoreBackend TupleStoreBackend

/-- C4: on an `InMemoryStoreBackend`, `add` on an existing key raises
`StoreBackendError` with a message containing "Store already has the
following key"; `update` on a key never added raises `StoreBackendError`
with a message containing "Store does not have a value associated the
following key"; `add_or_update` succeeds in both situations, after which
`get` returns the value just written. -/
theorem inmemory_add_update_add_or_update (s : State) (k : StoreKey) (v : Str)
    (hpresent : has_key s k = true) (s2 : State) (habsent : has_key s2 k = false) :
    (∃ m, add s k v = .error (.storeBackendError m) ∧
        containsSub m (str "Store already has the following key") = true) ∧
    (∃ m, update s2 k v = .error (.storeBackendError m) ∧
        containsSub m (str "Store does not have a value associated the following key") = true) ∧
    get (add_or_update s k v) k = .ok v ∧
    get (add_or_update s2 k v) k = .ok v := by
  refine ⟨⟨str "Store already has the following key: " ++ joinSep k, ?_, ?_⟩,
    ⟨str "Store does not have a value associated the following key: " ++ joinSep k, ?_, ?_⟩,
    ?_, ?_⟩
  · simp [add, hpresent]
  · exact containsSub_prefix_append _ (by decide)
  · simp [update, habsent]
  · exact containsSub_prefix_append _ (by decide)
  · simp [add_or_update, set, get, lookupA_insertA_self]
  · simp [add_or_update, set, get, lookupA_insertA_self]

/-- C4 witness: a backend holding `("foo",)` and a fresh backend that never
saw it, exercised at the key/value of the `test_InMemoryStoreBackend_add_*`
and `_update_*` tests. -/
theorem inmemory_add_update_add_or_update_witness :
    (has_key ⟨[([str "foo"], str "bar")]⟩ [str "foo"] = true ∧
      has_key ⟨[]⟩ [str "foo"] = false) ∧
    ((∃ m, add ⟨[([str "foo"], str "bar")]⟩ [str "foo"] (str "bar") =
        .error (.storeBackendError m) ∧
        containsSub m (str "Store already has the following key") = true) ∧
    (∃ m, update ⟨[]⟩ [str "foo"] (str "bar") = .error (.storeBackendError m) ∧
        containsSub m (str "Store does not have a value associated the following key") = true) ∧
    get (add_or_update ⟨[([str "foo"], str "bar")]⟩ [str "foo"] (str "bar")) [str "foo"] =
      .ok (str "bar") ∧
    get (add_or_update ⟨[]⟩ [str "foo"] (str "bar")) [str "foo"] = .ok (str "bar")) :=
  ⟨⟨by decide, by decide⟩,
    inmemory_add_update_add_or_update ⟨[([str "foo"], str "bar")]⟩ [str "foo"] (str "bar")
      (by decide) ⟨[]⟩ (by decide)⟩

/-- C8: on an `InMemoryStoreBackend`, `move` on an existing source key makes
the source absent and the destination present, holding the value previously
stored at the source and silently overwriting any prior destination value;
`move` with a nonexistent source key raises `KeyError`. -/
theorem inmemory_move_semantics (s : State) (k1 k2 : StoreKey) (v : Str)
    (hsrc : get s k1 = .ok v) (hne : k1 ≠ k2)
    (s2 : State) (k3 k4 : StoreKey) (habsent : has_key s2 k3 = false) :
    (∃ s3, move s k1 k2 = .ok s3 ∧ has_key s3 k1 = false ∧ has_key s3 k2 = true ∧
        get s3 k2 = .ok v) ∧
    (∃ m, move s2 k3 k4 = .error (.keyError m)) := by
  have hsrc2 : lookupA s.store k1 = some v := by
    revert hsrc
    unfold get
    cases h : lookupA s.store k1 with
    | some w => intro hv; rw [Except.ok.injEq] at hv; rw [hv]
    | none => intro hv; exact Except.noConfusion hv
  have habsent2 : lookupA s2.store k3 = none := by
    revert habsent
    unfold has_key
    cases h : lookupA s2.store k3 with
    | some w => intro hv; exact Bool.noConfusion hv
    | none => intro _; rfl
  refine ⟨⟨⟨removeA (insertA s.store k2 v) k1⟩, ?_, ?_, ?_, ?_⟩, ⟨joinSep k3, ?_⟩⟩
  · simp [move, hsrc2]
  · simp [has_key, lookupA_removeA_self]
  · simp [has_key, lookupA_removeA_ne _ (Ne.symm hne), lookupA_insertA_self]
  · simp [get, lookupA_removeA_ne _ (Ne.symm hne), lookupA_insertA_self]
  · simp [move, habsent2]

/-- C8 witness: the scenario of `test_InMemoryStoreBackend_move_*` — moving
`("my_key_1",)` onto `("my_key_2",)` in a store holding both, and moving a
fake key in an empty store. -/
theorem inmemory_move_semantics_witness :
    (get ⟨[([str "my_key_1"], str "123"), ([str "my_key_2"], str "old")]⟩ [str "my_key_1"] =
        .ok (str "123") ∧
      ([str "my_key_1"] : StoreKey) ≠ [str "my_key_2"] ∧
      has_key ⟨[]⟩ [str "my_fake_key_1"] = false) ∧
    ((∃ s3, move ⟨[([str "my_key_1"], str "123"), ([str "my_key_2"], str "old")]⟩
          [str "my_key_1"] [str "my_key_2"] = .ok s3 ∧
        has_key s3 [str "my_key_1"] = false ∧ has_key s3 [str "my_key_2"] = true ∧
        get s3 [str "my_key_2"] = .ok (str "123")) ∧
    ∃ m, move ⟨[]⟩ [str "my_fake_key_1"] [str "my_fake_key_2"] = .error (.keyError m)) :=
  ⟨⟨rfl, by decide, by decide⟩,
    inmemory_move_semantics ⟨[([str "my_key_1"], str "123"), ([str "my_key_2"], str "old")]⟩
      [str "my_key_1"] [str "my_key_2"] (str "123") rfl (by decide) ⟨[]⟩
      [str "my_fake_key_1"] [str "my_fake_key_2"] (by decide)⟩

end InMemoryStoreBackend

namespace TupleFilesystemStoreBackend

open StoreBackend TupleStoreBackend

/-- C5: on a filesystem backend rooted at an empty directory, `get` on an
absent key raises `InvalidKeyError`; after `set(("AAA",), "aaa")` and
`set(("BBB",), "bbb")` both values are retrievable and `list_keys()` is
exactly the set containing the reserved id key, `("AAA",)` and `("BBB",)`;
after `remove_key(("BBB",))`, `get(("BBB",))` raises `InvalidKeyError`. -/
theorem filesystem_scenario (u : Str) :
    ∃ st0, construct ⟨codecMyFile, none⟩ [] u = .ok st0 ∧
    (∃ m, get st0 [str "AAA"] = .error (.invalidKeyError m)) ∧
    ∃ st1, set st0 [str "AAA"] (str "aaa") = .ok st1 ∧
    ∃ st2, set st1 [str "BBB"] (str "bbb") = .ok st2 ∧
    get st2 [str "AAA"] = .ok (str "aaa") ∧
    get st2 [str "BBB"] = .ok (str "bbb") ∧
    (list_keys st2).Perm [STORE_BACKEND_ID_KEY, [str "AAA"], [str "BBB"]] ∧
    ∃ b st3, remove_key st2 [str "BBB"] = .ok (b, st3) ∧
      ∃ m2, get st3 [str "BBB"] = .error (.invalidKeyError m2) := by
  refine ⟨_, rfl, ⟨_, rfl⟩, _, rfl, _, rfl, rfl, rfl, ?_, _, _, rfl, _, rfl⟩
  exact List.Perm.refl _

/-- C9: constructing a `TupleFilesystemStoreBackend` with a
`filepath_prefix` ending in `/` or in `\` fails at construction time with a
`StoreBackendError` whose message contains "filepath_prefix may not end
with". -/
theorem filesystem_filepath_pfx_construction_error (t : Option Template)
    (sfx bpp : Option Str) (fs0 : List (Str × Str)) (u q : Str)
    (hq : q.getLast? = some '/' ∨ q.getLast? = some '\\') :
    ∃ m, construct ⟨⟨t, some q, sfx⟩, bpp⟩ fs0 u = .error (.storeBackendError m) ∧
      containsSub m (str "filepath_prefix may not end with") = true := by
  refine ⟨str "filepath_prefix may not end with '/' or '\\'", ?_, by decide⟩
  simp [construct, hq]

/-- C9 witness: the two prefixes of
`test_tuple_filesystem_store_filepath_prefix_error`, one ending in `/` and
one ending in `\`. -/
theorem filesystem_filepath_pfx_construction_error_witness :
    ((str "invalid_prefix_ends_with/").getLast? = some '/' ∨
      (str "invalid_prefix_ends_with/").getLast? = some '\\') ∧
    ((str "invalid_prefix_ends_with\\").getLast? = some '/' ∨
      (str "invalid_prefix_ends_with\\").getLast? = some '\\') ∧
    (∃ m, construct ⟨⟨none, some (str "invalid_prefix_ends_with/"), none⟩, none⟩ [] [] =
        .error (.storeBackendError m) ∧
      containsSub m (str "filepath_prefix may not end with") = true) ∧
    (∃ m, construct ⟨⟨none, some (str "invalid_prefix_ends_with\\"), none⟩, none⟩ [] [] =
        .error (.storeBackendError m) ∧
      containsSub m (str "filepath_prefix may not end with") = true) :=
  ⟨by decide, by decide,
    filesystem_filepath_pfx_construction_error none none none [] []
      (str "invalid_prefix_ends_with/") (by decide),
    filesystem_filepath_pfx_construction_error none none none [] []
      (str "invalid_prefix_ends_with\\") (by decide)⟩

end TupleFilesystemStoreBackend

namespace InlineStoreBackend

open StoreBackend TupleStoreBackend

/-- C7: on an `InlineStoreBackend`, `move` always raises `StoreBackendError`
with a message containing "does not support moving of keys"; `remove_key`
on a top-level resource key raises `StoreBackendError` with a message
containing "does not support the deletion of top level keys"; `remove_key`
addressing a nonexistent sub-resource raises `StoreBackendError` with a
message containing "Could not find a value associated with key". -/
theorem inline_move_remove_key_restrictions (s : State) (k1 k2 ktop : StoreKey)
    (htop : resourceNameOf ktop = none)
    (s2 : State) (kmiss : StoreKey) (name : Str)
    (hname : resourceNameOf kmiss = some name)
    (hmiss : (lookupA s2.doc s2.resourceType).bind (fun sub => lookupA sub name) = none) :
    (∃ m, move s k1 k2 = .error (.storeBackendError m) ∧
        containsSub m (str "does not support moving of keys") = true) ∧
    (∃ m, remove_key s ktop = .error (.storeBackendError m) ∧
        containsSub m (str "does not support the deletion of top level keys") = true) ∧
    (∃ m, remove_key s2 kmiss = .error (.storeBackendError m) ∧
        containsSub m (str "Could not find a value associated with key") = true) := by
  refine ⟨⟨_, rfl, by decide⟩,
    ⟨str "InlineStoreBackend does not support the deletion of top level keys", ?_, by decide⟩,
    ⟨str "Could not find a value associated with key: " ++ name, ?_, ?_⟩⟩
  · simp [remove_key, htop]
  · cases h : lookupA s2.doc s2.resourceType with
    | none => simp [remove_key, hname, h]
    | some sub =>
        have h2 : lookupA sub name = none := by
          rw [h] at hmiss
          simpa using hmiss
        simp [remove_key, hname, h, h2]
  · exact containsSub_prefix_append _ (by decide)

/-- C7 witness: the `test_InlineStoreBackend` scenario — a backend over the
`progress_bars` resource with no sub-resources, the top-level key `()` and
the missing sub-resource key `("profilers",)`. -/
theorem inline_move_remove_key_restrictions_witness :
    (resourceNameOf ([] : StoreKey) = none ∧
      resourceNameOf [str "profilers"] = some (str "profilers") ∧
      (lookupA (State.mk (str "progress_bars") []).doc
          (State.mk (str "progress_bars") []).resourceType).bind
        (fun sub => lookupA sub (str "profilers")) = none) ∧
    ((∃ m, move ⟨str "progress_bars", []⟩ [] [] = .error (.storeBackendError m) ∧
        containsSub m (str "does not support moving of keys") = true) ∧
    (∃ m, remove_key ⟨str "progress_bars", []⟩ [] = .error (.storeBackendError m) ∧
        containsSub m (str "does not support the deletion of top level keys") = true) ∧
    (∃ m, remove_key ⟨str "progress_bars", []⟩ [str "profilers"] =
        .error (.storeBackendError m) ∧
        containsSub m (str "Could not find a value associated with key") = true)) :=
  ⟨⟨rfl, by decide, rfl⟩,
    inline_move_remove_key_restrictions ⟨str "progress_bars", []⟩ [] [] [] rfl
      ⟨str "progress_bars", []⟩ [str "profilers"] (str "profilers") (by decide) rfl⟩

end InlineStoreBackend

namespace TupleS3StoreBackend

open StoreBackend TupleStoreBackend

/-- C10: on a `TupleS3StoreBackend` configured with a non-empty prefix and a
`base_public_path`, `get_public_url_for_key` returns `base_public_path`
concatenated with only the encoded filename — both the bucket and the S3
prefix omitted — whereas `get_url_for_key` for the same configuration
includes the bucket and the prefix. -/
theorem s3_public_url_omits_bucket_and_prefix_path (bucket pfx2 b : Str)
    (t : Option Template) (fpPfx fpSfx : Option Str) (k : StoreKey) (f : Str)
    (hpfx : pfx2.isEmpty = false)
    (henc : _convert_key_to_filepath ⟨t, fpPfx, fpSfx⟩ k = .ok f) :
    get_public_url_for_key ⟨bucket, pfx2, ⟨t, fpPfx, fpSfx⟩, some b⟩ k = .ok (b ++ f) ∧
    get_url_for_key ⟨bucket, pfx2, ⟨t, fpPfx, fpSfx⟩, some b⟩ k =
      .ok (str "https://s3.amazonaws.com/" ++ bucket ++ '/' :: (pfx2 ++ '/' :: f)) := by
  constructor
  · simp [get_public_url_for_key, henc, Except.map]
  · simp [get_url_for_key, _build_s3_object_key, henc, withS3Pfx, hpfx, Except.map]

/-- C10 witness: the configuration of `test_TupleS3StoreBackend_with_prefix`
— bucket `leakybucket`, prefix `this_is_a_test_prefix`, public root
`http://www.test.com/`, template `my_file_{0}`, key `("BBB",)`. -/
theorem s3_public_url_omits_bucket_and_prefix_path_witness :
    ((str "this_is_a_test_prefix").isEmpty = false ∧
      _convert_key_to_filepath ⟨some templateMyFile, none, none⟩ [str "BBB"] =
        .ok (str "my_file_BBB")) ∧
    (get_public_url_for_key
        ⟨str "leakybucket", str "this_is_a_test_prefix",
          ⟨some templateMyFile, none, none⟩, some (str "http://www.test.com/")⟩
        [str "BBB"] = .ok (str "http://www.test.com/" ++ str "my_file_BBB") ∧
      get_url_for_key
        ⟨str "leakybucket", str "this_is_a_test_prefix",
          ⟨some templateMyFile, none, none⟩, some (str "http://www.test.com/")⟩
        [str "BBB"] = .ok (str "https://s3.amazonaws.com/" ++ str "leakybucket" ++
          '/' :: (str "this_is_a_test_prefix" ++ '/' :: str "my_file_BBB"))) :=
  ⟨⟨rfl, rfl⟩,
    s3_public_url_omits_bucket_and_prefix_path (str "leakybucket")
      (str "this_is_a_test_prefix") (str "http://www.test.com/")
      (some templateMyFile) none none [str "BBB"] (str "my_file_BBB") rfl rfl⟩

end TupleS3StoreBackend

namespace TupleS3StoreBackend

open StoreBackend TupleStoreBackend

/-- C2: on construction a backend reads or generates-and-persists a UUIDv4
under the reserved key; for a persisting object-store backend the cached
`store_backend_id` is the (valid, non-sentinel) generated UUIDv4 and is
persisted in the `store_backend_id = <uuid>` format; a second instance
constructed against the identical physical location reports the same id;
against an unreachable location the id is the sentinel
`00000000-0000-0000-0000-00000000e003` and construction still returns
normally. -/
theorem store_backend_id_lifecycle (cfg : Config) (u u2 u3 : Str)
    (hu : validate_uuid4 u = true) (mU : Medium) (hUnreach : mU.reachable = false) :
    ∃ b1 m1, construct cfg emptyMedium u = (b1, m1) ∧
      b1.store_backend_id = u ∧
      validate_uuid4 b1.store_backend_id = true ∧
      b1.store_backend_id ≠ STORE_BACKEND_ID_ERROR_UUID ∧
      lookupA m1.objects (idObjectKey cfg) = some (storeBackendIdFileContents u) ∧
      (∃ b2 m2, construct cfg m1 u2 = (b2, m2) ∧
        b2.store_backend_id = b1.store_backend_id) ∧
      (construct cfg mU u3).1.store_backend_id = STORE_BACKEND_ID_ERROR_UUID := by
  refine ⟨⟨cfg, u⟩, ⟨true, insertA [] (idObjectKey cfg) (storeBackendIdFileContents u)⟩,
    rfl, rfl, hu, valid_uuid4_ne_sentinel hu, lookupA_insertA_self _ _ _, ?_, ?_⟩
  · refine ⟨⟨cfg, parseStoreBackendIdFile (storeBackendIdFileContents u)⟩,
      ⟨true, insertA [] (idObjectKey cfg) (storeBackendIdFileContents u)⟩, ?_, ?_⟩
    · simp [construct, lookupA_insertA_self]
    · exact parse_storeBackendIdFile_roundtrip u
  · simp [construct, hUnreach]

/-- C2 witness: the bucket/prefix/template configuration of
`test_TupleS3StoreBackend_store_backend_id` with a concrete well-formed
UUIDv4, and an unreachable medium (the GCS case of
`test_StoreBackend_id_initialization`). -/
theorem store_backend_id_lifecycle_witness :
    (validate_uuid4 (str "12345678-1234-4123-8123-123456789abc") = true ∧
      (Medium.mk false []).reachable = false) ∧
    (∃ b1 m1, construct
        ⟨str "leakybucket2", str "this_is_a_test_prefix", codecMyFile, none⟩
        emptyMedium (str "12345678-1234-4123-8123-123456789abc") = (b1, m1) ∧
      b1.store_backend_id = str "12345678-1234-4123-8123-123456789abc" ∧
      validate_uuid4 b1.store_backend_id = true ∧
      b1.store_backend_id ≠ STORE_BACKEND_ID_ERROR_UUID ∧
      lookupA m1.objects (idObjectKey
          ⟨str "leakybucket2", str "this_is_a_test_prefix", codecMyFile, none⟩) =
        some (storeBackendIdFileContents (str "12345678-1234-4123-8123-123456789abc")) ∧
      (∃ b2 m2, construct
          ⟨str "leakybucket2", str "this_is_a_test_prefix", codecMyFile, none⟩
          m1 (str "aaaaaaaa-aaaa-4aaa-8aaa-aaaaaaaaaaaa") = (b2, m2) ∧
        b2.store_backend_id = b1.store_backend_id) ∧
      (construct ⟨str "leakybucket2", str "this_is_a_test_prefix", codecMyFile, none⟩
          ⟨false, []⟩ (str "bbbbbbbb-bbbb-4bbb-8bbb-bbbbbbbbbbbb")).1.store_backend_id =
        STORE_BACKEND_ID_ERROR_UUID) :=
  ⟨⟨by decide, rfl⟩,
    store_backend_id_lifecycle
      ⟨str "leakybucket2", str "this_is_a_test_prefix", codecMyFile, none⟩
      (str "12345678-1234-4123-8123-123456789abc")
      (str "aaaaaaaa-aaaa-4aaa-8aaa-aaaaaaaaaaaa")
      (str "bbbbbbbb-bbbb-4bbb-8bbb-bbbbbbbbbbbb") (by decide) ⟨false, []⟩ rfl⟩

end TupleS3StoreBackend

theorem lookupA_append_of_none {α β : Type} [DecidableEq α]
    {a : List (α × β)} (b : List (α × β)) {k : α} (h : lookupA a k = none) :
    lookupA (a ++ b) k = lookupA b k := by
  induction a with
  | nil => rfl
  | cons p rest ih =>
    by_cases h1 : k = p.1
    · simp [lookupA, h1] at h
    · simp only [lookupA, h1, if_false] at h
      simp only [List.cons_append, lookupA, h1, if_false]
      exact ih h

/-- A `filterMap` whose function succeeds on every element preserves the
length (pagination plus decoding loses no key). -/
theorem length_filterMap_of_all_some {α β : Type} (f : α → Option β) (l : List α)
    (h : ∀ x ∈ l, (f x).isSome = true) : (l.filterMap f).length = l.length := by
  induction l with
  | nil => rfl
  | cons a rest ih =>
    have ha := h a (List.mem_cons_self a rest)
    cases hfa : f a with
    | none => rw [hfa] at ha; exact Bool.noConfusion ha
    | some b =>
      simp only [List.filterMap_cons, hfa, List.length_cons]
      rw [ih (fun x hx => h x (List.mem_cons_of_mem a hx))]

namespace TupleS3StoreBackend

open StoreBackend TupleStoreBackend

/-- The paginated listing loop returns the complete union of its pages. -/
theorem listAllPages_eq_self (l : List Str) : listAllPages l = l := by
  induction l using listAllPages.induct with
  | case1 => rw [listAllPages]
  | case2 k rest ih =>
    rw [listAllPages, ih, List.take_append_drop]

theorem pageObjKey_inj {x y : Str} (h : pageObjKey x = pageObjKey y) : x = y := by
  unfold pageObjKey at h
  have h2 := List.append_cancel_left h
  injection h2 with _ h3
  have h4 := List.append_cancel_left h3
  simpa using h4

theorem pageObjKey_ne_id (s : Str) :
    pageObjKey s ≠ str "my_prefix" ++ '/' :: str ".ge_store_backend_id" := by
  intro h
  unfold pageObjKey at h
  have h2 := List.append_cancel_left h
  injection h2 with _ h3
  rw [show str "my_file_" = 'm' :: str "y_file_" from rfl, List.cons_append] at h3
  rw [show str ".ge_store_backend_id" = '.' :: str "ge_store_backend_id" from rfl] at h3
  injection h3 with h4 _
  exact absurd h4 (by decide)

/-- One `set` of `test_TupleS3StoreBackend_list_over_1000_keys` uploads at
exactly the prefixed templated object key. -/
theorem set_single (bucket : Str) (m : Medium) (s : Str)
    (hsep1 : s.any (fun c => c == '/') = false)
    (hne1 : s ≠ str ".ge_store_backend_id") :
    set (paginationConfig bucket) m [s] s =
      .ok ⟨m.reachable, insertA m.objects (pageObjKey s) s⟩ := by
  simp [set, _build_s3_object_key, _convert_key_to_filepath, paginationConfig, codecMyFile,
    templateMyFile, substitute, withS3Pfx, applyPfx, hsep1, hne1, STORE_BACKEND_ID_KEY,
    Except.map, pageObjKey,
    show (str "my_prefix").isEmpty = false from rfl]

/-- Writing pairwise-distinct fresh keys appends their objects in order. -/
theorem setMany_appends (bucket : Str) (segs : List Str) (m : Medium)
    (hsep : ∀ s ∈ segs, s.any (fun c => c == '/') = false)
    (hne : ∀ s ∈ segs, s ≠ str ".ge_store_backend_id")
    (hfresh : ∀ s ∈ segs, lookupA m.objects (pageObjKey s) = none)
    (hnodup : segs.Nodup) :
    setMany (paginationConfig bucket) m segs =
      .ok ⟨m.reachable, m.objects ++ segs.map (fun s => (pageObjKey s, s))⟩ := by
  induction segs generalizing m with
  | nil => simp [setMany]
  | cons s rest ih =>
    have hs0 := hsep s (List.mem_cons_self s rest)
    have hn0 := hne s (List.mem_cons_self s rest)
    have hf0 := hfresh s (List.mem_cons_self s rest)
    have hrest : ∀ x ∈ rest,
        lookupA (m.objects ++ [(pageObjKey s, s)]) (pageObjKey x) = none := by
      intro x hx
      rw [lookupA_append_of_none _ (hfresh x (List.mem_cons_of_mem s hx))]
      have hpk : pageObjKey x ≠ pageObjKey s := by
        intro he
        exact absurd ((pageObjKey_inj he) ▸ hx) (List.nodup_cons.mp hnodup).1
      simp [lookupA, hpk]
    rw [setMany, set_single bucket m s hs0 hn0,
      insertA_of_lookupA_none _ hf0]
    show setMany (paginationConfig bucket)
      ⟨m.reachable, m.objects ++ [(pageObjKey s, s)]⟩ rest = _
    rw [ih ⟨m.reachable, m.objects ++ [(pageObjKey s, s)]⟩
      (fun x hx => hsep x (List.mem_cons_of_mem s hx))
      (fun x hx => hne x (List.mem_cons_of_mem s hx))
      hrest (List.nodup_cons.mp hnodup).2]
    simp [List.append_assoc]

theorem stripS3Pfx_pageObjKey (bucket s : Str) :
    stripS3Pfx (paginationConfig bucket) (pageObjKey s) =
      some (str "my_file_" ++ (s ++ [])) := by
  have key : (str "my_prefix" ++ ['/']) ++ (str "my_file_" ++ (s ++ [])) =
      pageObjKey s := by
    rw [List.append_assoc]
    rfl
  unfold stripS3Pfx
  rw [show (paginationConfig bucket).s3Pfx = str "my_prefix" from rfl, ← key]
  simp only [show (str "my_prefix").isEmpty = false from rfl, Bool.false_eq_true,
    if_false, isPrefixOf_append_self, if_true, List.drop_left]

theorem convert_filepath_myFile (s : Str) :
    _convert_filepath_to_key codecMyFile (str "my_file_" ++ (s ++ [])) =
      some [s ++ []] := by
  simp only [_convert_filepath_to_key, codecMyFile, dropPfxOpt, dropSfxOpt, Option.some_bind]
  rw [show matchTemplate templateMyFile (str "my_file_" ++ (s ++ [])) =
      some [(0, s ++ [])] from by
    unfold templateMyFile
    simp only [matchTemplate, isPrefixOf_append_self, if_true, List.drop_left]]
  rfl

/-- Decoding a listed templated object key back through the prefix-strip and
the template succeeds. -/
theorem listDecode_pageObjKey (bucket s : Str) :
    (if pageObjKey s = idObjectKey (paginationConfig bucket) then
        some STORE_BACKEND_ID_KEY
      else (stripS3Pfx (paginationConfig bucket) (pageObjKey s)).bind
        (_convert_filepath_to_key (paginationConfig bucket).codec)) =
      some [s ++ []] := by
  rw [show idObjectKey (paginationConfig bucket) =
    str "my_prefix" ++ '/' :: str ".ge_store_backend_id" from rfl]
  rw [if_neg (pageObjKey_ne_id s), stripS3Pfx_pageObjKey, Option.some_bind]
  rw [show (paginationConfig bucket).codec = codecMyFile from rfl]
  exact convert_filepath_myFile s

end TupleS3StoreBackend

namespace TupleS3StoreBackend

open StoreBackend TupleStoreBackend

/-- `list_keys` with every object key under the prefix reduces to decoding
the complete (pagination-unioned) object listing. -/
theorem list_keys_eq (cfg : Config) (m : Medium)
    (hfilter : (m.objects.map (fun p => p.1)).filter
      (fun okey => cfg.s3Pfx.isPrefixOf okey) = m.objects.map (fun p => p.1)) :
    list_keys cfg m = (m.objects.map (fun p => p.1)).filterMap
      (fun okey =>
        if okey = idObjectKey cfg then some STORE_BACKEND_ID_KEY
        else (stripS3Pfx cfg okey).bind (_convert_filepath_to_key cfg.codec)) := by
  unfold list_keys
  rw [hfilter, listAllPages_eq_self]

/-- The exact key list a paginated `list_keys` returns over the id object
plus one templated object per segment. -/
theorem list_keys_count (bucket u : Str) (segs : List Str) :
    list_keys (paginationConfig bucket)
      ⟨true, (str "my_prefix" ++ '/' :: str ".ge_store_backend_id",
        storeBackendIdFileContents u) :: segs.map (fun s => (pageObjKey s, s))⟩ =
      STORE_BACKEND_ID_KEY :: segs.map (fun s => [s ++ []]) := by
  rw [list_keys_eq]
  · have hmap : ((str "my_prefix" ++ '/' :: str ".ge_store_backend_id",
        storeBackendIdFileContents u) :: segs.map (fun s => (pageObjKey s, s))).map
        (fun p => p.1) =
        (str "my_prefix" ++ '/' :: str ".ge_store_backend_id") :: segs.map pageObjKey := by
      simp
    rw [hmap, List.filterMap_cons]
    show STORE_BACKEND_ID_KEY :: (segs.map pageObjKey).filterMap _ = _
    rw [List.filterMap_map]
    have hcomp : ((fun okey =>
        if okey = idObjectKey (paginationConfig bucket) then some STORE_BACKEND_ID_KEY
        else (stripS3Pfx (paginationConfig bucket) okey).bind
          (_convert_filepath_to_key (paginationConfig bucket).codec)) ∘ pageObjKey) =
        (some ∘ fun s => ([s ++ []] : StoreKey)) := by
      funext s
      exact listDecode_pageObjKey bucket s
    rw [hcomp, List.filterMap_eq_map]
  · apply List.filter_eq_self.mpr
    intro x hx
    rcases List.mem_cons.mp hx with h | hx2
    · subst h
      exact isPrefixOf_append_self _ _
    · rcases List.mem_map.mp hx2 with ⟨p, hp, rfl⟩
      rcases List.mem_map.mp hp with ⟨s, -, rfl⟩
      exact isPrefixOf_append_self _ _

/-- C3: for a `TupleS3StoreBackend` over a medium whose listing API caps a
single call at 1000 objects, `list_keys()` transparently paginates and
returns the complete union — after 1200 distinct `set`s it returns exactly
1201 entries (the 1200 keys plus the reserved backend-id key). -/
theorem s3_list_keys_paginates_beyond_1000 (bucket u : Str) (segs : List Str)
    (hlen : segs.length = 1200) (hnodup : segs.Nodup)
    (hsep : ∀ s ∈ segs, s.any (fun c => c == '/') = false)
    (hne : ∀ s ∈ segs, s ≠ str ".ge_store_backend_id") :
    ∃ m2, setMany (paginationConfig bucket)
        ((construct (paginationConfig bucket) emptyMedium u).2) segs = .ok m2 ∧
      (list_keys (paginationConfig bucket) m2).length = 1201 := by
  have hfresh : ∀ s ∈ segs,
      lookupA [(str "my_prefix" ++ '/' :: str ".ge_store_backend_id",
        storeBackendIdFileContents u)] (pageObjKey s) = none := by
    intro s hs
    simp [lookupA, pageObjKey_ne_id s]
  refine ⟨⟨true, (str "my_prefix" ++ '/' :: str ".ge_store_backend_id",
      storeBackendIdFileContents u) :: segs.map (fun s => (pageObjKey s, s))⟩, ?_, ?_⟩
  · exact setMany_appends bucket segs
      ⟨true, [(str "my_prefix" ++ '/' :: str ".ge_store_backend_id",
        storeBackendIdFileContents u)]⟩ hsep hne hfresh hnodup
  · rw [list_keys_count bucket u segs]
    simp [hlen]

theorem any_slash_replicate (i : Nat) :
    (List.replicate i 'a').any (fun c => c == '/') = false := by
  induction i with
  | zero => rfl
  | succ n ih => simp [List.replicate_succ, List.any_cons, ih]

theorem replicate_ne_id (i : Nat) :
    List.replicate i 'a' ≠ str ".ge_store_backend_id" := by
  cases i with
  | zero => decide
  | succ n =>
    intro h
    rw [List.replicate_succ] at h
    rw [show str ".ge_store_backend_id" = '.' :: str "ge_store_backend_id" from rfl] at h
    injection h with h1 _
    exact absurd h1 (by decide)

/-- C3 witness: 1200 concrete pairwise-distinct separator-free keys (the
`n`-fold repetitions of `a` for `n < 1200`) written through `set`, listed
back as 1201 keys. -/
theorem s3_list_keys_paginates_beyond_1000_witness :
    ((((List.range 1200).map (fun i => List.replicate i 'a')).length = 1200) ∧
      ((List.range 1200).map (fun i => List.replicate i 'a')).Nodup ∧
      (∀ s ∈ (List.range 1200).map (fun i => List.replicate i 'a'),
        s.any (fun c => c == '/') = false) ∧
      (∀ s ∈ (List.range 1200).map (fun i => List.replicate i 'a'),
        s ≠ str ".ge_store_backend_id")) ∧
    (∃ m2, setMany (paginationConfig (str "leakybucket"))
        ((construct (paginationConfig (str "leakybucket")) emptyMedium
          (str "12345678-1234-4123-8123-123456789abc")).2)
        ((List.range 1200).map (fun i => List.replicate i 'a')) = .ok m2 ∧
      (list_keys (paginationConfig (str "leakybucket")) m2).length = 1201) := by
  have hnodup : ((List.range 1200).map (fun i => List.replicate i 'a')).Nodup :=
    List.Nodup.map (fun a b h => by simpa using congrArg List.length h)
      (List.nodup_range 1200)
  have hsep : ∀ s ∈ (List.range 1200).map (fun i => List.replicate i 'a'),
      s.any (fun c => c == '/') = false := by
    intro s hs
    rcases List.mem_map.mp hs with ⟨i, -, rfl⟩
    exact any_slash_replicate i
  have hne : ∀ s ∈ (List.range 1200).map (fun i => List.replicate i 'a'),
      s ≠ str ".ge_store_backend_id" := by
    intro s hs
    rcases List.mem_map.mp hs with ⟨i, -, rfl⟩
    exact replicate_ne_id i
  exact ⟨⟨by simp, hnodup, hsep, hne⟩,
    s3_list_keys_paginates_beyond_1000 (str "leakybucket")
      (str "12345678-1234-4123-8123-123456789abc")
      ((List.range 1200).map (fun i => List.replicate i 'a')) (by simp) hnodup hsep hne⟩

end TupleS3StoreBackend
